import Mathlib

/-!
Shallow embedding of the ravestate signal-processing context
(src/modules/ravestate/context.py) and of the specificity measure of
activations.  Python dicts over string keys are modelled as ordered
association lists, Python sets as duplicate-free lists, and Python
exceptions as explicit error values carried next to the mutated state
(an exception does not roll back mutations that happened before it).

Two language-level facts of CPython that the translated code depends on
are modelled explicitly:

* A class-body annotation without assignment (line 40 of context.py,
  the run_task attribute) creates no attribute, so reading it raises
  AttributeError.  The attribute is modelled as an Option that starts
  out none, where none means "never assigned".

* Line 61 of context.py assigns the typing generic alias
  Dict[Tuple[Signal, int], Set[State]] itself (not a dictionary) to the
  activations_per_signal_age attribute.  Dictionary operations applied
  to that alias fail: item assignment and subscription raise TypeError,
  pop resolves to the unbound dict.pop descriptor and raises TypeError,
  and a membership test raises TypeError as well (CPython 3.7-3.10,
  the interpreter generation contemporary with this code, where a
  parameterized alias is not iterable and its subscription rejects
  non-type arguments).  The attribute value is modelled by the type
  SigIndex below, whose aliasObj constructor is the alias object and
  whose dictObj constructor is an actual dictionary; every operation is
  total and returns an explicit error on aliasObj.

* bool(threading.Event()) is True regardless of the internal flag,
  because Event defines neither a bool nor a len conversion.
-/

namespace Ravestate

/-- A signal, identified by its name (constraint.py builds signals from
name strings via the function s). -/
abbrev Sig := String

/-- The value of the triggers attribute of a state: either a plain
string (the legacy representation that add_state warns about) or a
constraint object whose get_all_signals method yields the signals
occurring in the trigger expression. -/
inductive Trigger where
  | str (legacy : String)
  | constraint (sigs : List Sig)
deriving DecidableEq

/-- The get_all_signals call used by add_state and rm_state.  On a
plain string the attribute does not exist, so the call raises
AttributeError; on a constraint it returns the signal list. -/
def Trigger.get_all_signals : Trigger → Option (List Sig)
  | Trigger.str _ => none
  | Trigger.constraint sigs => some sigs

/-- A state object, with the attributes context.py reads: a name, the
lists of read and written property names, the optional completion
signal (none models a falsy signal attribute), and the trigger
expression.  The field sid models Python object identity, which is
what set membership of states uses (the State class defines no custom
equality). -/
structure State where
  sid : Nat
  name : String
  read_props : List String
  write_props : List String
  signal : Option Sig
  triggers : Trigger
deriving DecidableEq

/-- Modelled from the spec: a property is a named exclusive resource
whose full name is the module name and the property name joined with a
colon (property.py is not part of the reviewed material).  The field
pid models Python object identity; PropertyBase defines no custom
equality, so a property object compares equal only to itself and never
to a string. -/
structure PropertyBase where
  pid : Nat
  module : String
  name : String
deriving DecidableEq

/-- The fullname method of PropertyBase, modelled from the spec:
full name = module ++ ":" ++ name. -/
def PropertyBase.fullname (p : PropertyBase) : String :=
  p.module ++ ":" ++ p.name

/-- Python dict lookup on an association list (first binding of the key
wins; insertions keep keys unique). -/
def dictLookup (d : List (String × PropertyBase)) (k : String) :
    Option PropertyBase :=
  match d with
  | [] => none
  | (k2, v) :: rest => if k2 = k then some v else dictLookup rest k

/-- Python dict item assignment d[k] = v: overwrites the binding of k
if present, otherwise appends a new binding. -/
def dictInsert (d : List (String × PropertyBase)) (k : String)
    (v : PropertyBase) : List (String × PropertyBase) :=
  match d with
  | [] => [(k, v)]
  | (k2, v2) :: rest =>
      if k2 = k then (k, v) :: rest else (k2, v2) :: dictInsert rest k v

/-- Python set.add on a duplicate-free list. -/
def pySetAdd {α : Type} [DecidableEq α] (s : List α) (a : α) : List α :=
  if a ∈ s then s else a :: s

/-- Python set.remove on a duplicate-free list (the callers check
membership first, so the KeyError branch never arises). -/
def pySetRemove {α : Type} [DecidableEq α] (s : List α) (a : α) :
    List α :=
  s.filter (fun b => decide (b ≠ a))

/-- Equality test between a string and a PropertyBase instance, as
evaluated by Python in the membership test of add_prop.  Modelled from
the spec: PropertyBase (not part of the reviewed material) defines no
custom equality, so comparison with a string falls back to identity
and is always False. -/
def strEqPropertyBase (_fn : String) (_p : PropertyBase) : Bool :=
  false

/-- The membership test of add_prop, line 172 of context.py:
prop.fullname() in properties.values() iterates the dict VALUES
(property objects) and compares each to the fullname string. -/
def strInValues (fn : String) (d : List (String × PropertyBase)) :
    Bool :=
  d.any (fun kv => strEqPropertyBase fn kv.2)

/-- The Python exceptions raised by the translated code. -/
inductive PyErr where
  | attributeError (attr : String)
  | typeError
  | keyError
deriving DecidableEq

/-- The value of the activations_per_signal_age attribute.  aliasObj is
the typing generic alias assigned by the constructor (line 61 of
context.py); dictObj is an actual dictionary from signals to age
buckets of interested states, the value the rest of the class was
written for but which is never actually stored. -/
inductive SigIndex where
  | aliasObj
  | dictObj (entries : List (Sig × List (Nat × List State)))
deriving DecidableEq

/-- Lookup of a signal entry in a dictObj index. -/
def idxLookup (m : List (Sig × List (Nat × List State))) (sig : Sig) :
    Option (List (Nat × List State)) :=
  match m with
  | [] => none
  | (k, v) :: rest => if k = sig then some v else idxLookup rest sig

/-- Overwriting insertion of a signal entry in a dictObj index. -/
def idxInsert (m : List (Sig × List (Nat × List State))) (sig : Sig)
    (v : List (Nat × List State)) : List (Sig × List (Nat × List State)) :=
  match m with
  | [] => [(sig, v)]
  | (k, v2) :: rest =>
      if k = sig then (sig, v) :: rest else (k, v2) :: idxInsert rest sig v

/-- Removal of a signal entry from a dictObj index. -/
def idxErase (m : List (Sig × List (Nat × List State))) (sig : Sig) :
    List (Sig × List (Nat × List State)) :=
  match m with
  | [] => []
  | (k, v) :: rest =>
      if k = sig then rest else (k, v) :: idxErase rest sig

/-- Item assignment index[sig] = defaultdict(set), as performed by
add_prop and add_state.  On the alias object this raises TypeError. -/
def SigIndex.setEmptyEntry : SigIndex → Sig → Except PyErr SigIndex
  | SigIndex.aliasObj, _ => Except.error PyErr.typeError
  | SigIndex.dictObj m, sig => Except.ok (SigIndex.dictObj (idxInsert m sig []))

/-- Membership test sig in index, as performed by add_state.  On the
alias object this raises TypeError (see the header comment). -/
def SigIndex.containsSig : SigIndex → Sig → Except PyErr Bool
  | SigIndex.aliasObj, _ => Except.error PyErr.typeError
  | SigIndex.dictObj m, sig => Except.ok (idxLookup m sig).isSome

/-- The statement index[sig][0].add(st) of add_state: appends st to the
age-0 bucket of the entry of sig (the defaultdict materializes a fresh
set for a missing age key).  On the alias object the subscription
raises TypeError. -/
def SigIndex.addInterested : SigIndex → Sig → State → Except PyErr SigIndex
  | SigIndex.aliasObj, _, _ => Except.error PyErr.typeError
  | SigIndex.dictObj m, sig, st =>
      match idxLookup m sig with
      | none => Except.error PyErr.keyError
      | some buckets =>
          let zero := match buckets.lookup 0 with
            | some states => states
            | none => []
          Except.ok (SigIndex.dictObj
            (idxInsert m sig ((0, pySetAdd zero st) ::
              buckets.filter (fun b => decide (b.1 ≠ 0)))))

/-- The call index.pop(sig) of rm_state.  On the alias object the pop
attribute resolves to the unbound dict.pop descriptor, whose
application to a non-dict raises TypeError. -/
def SigIndex.popEntry : SigIndex → Sig → Except PyErr SigIndex
  | SigIndex.aliasObj, _ => Except.error PyErr.typeError
  | SigIndex.dictObj m, sig =>
      match idxLookup m sig with
      | none => Except.error PyErr.keyError
      | some _ => Except.ok (SigIndex.dictObj (idxErase m sig))

/-- The statement index[sig].remove(st) of rm_state.  On the alias
object the subscription raises TypeError; on a dictionary the entry is
itself a dict (age buckets), and dict has no remove attribute, so the
call raises AttributeError. -/
def SigIndex.removeInterested : SigIndex → Sig → State → Except PyErr SigIndex
  | SigIndex.aliasObj, _, _ => Except.error PyErr.typeError
  | SigIndex.dictObj m, sig, _ =>
      match idxLookup m sig with
      | none => Except.error PyErr.keyError
      | some _ => Except.error (PyErr.attributeError "remove")

/-- The threading.Thread objects stored (never, as it turns out) in the
run_task attribute. -/
structure PyThread where
  tid : Nat
deriving DecidableEq

/-- The error and info messages logged by the context methods. -/
inductive LogMsg where
  | errAddStateTwice (name : String)
  | errUnknownProperty (propname : String)
  | errStringTrigger (legacy : String)
  | errUnknownSignal (sig : Sig)
  | errRemoveUnknownState (name : String)
  | errAddPropTwice (name : String)
  | errUnknownPropKey (key : String)
  | errStartTwice
deriving DecidableEq

/-- The mutable attributes of a Context object.  run_task = none means
the attribute was never assigned (reading it raises AttributeError);
shutdown_flag is the internal flag of the Event object. -/
structure Context where
  properties : List (String × PropertyBase)
  states : List State
  signals : List Sig
  apsa : SigIndex
  shutdown_flag : Bool
  run_task : Option PyThread
deriving DecidableEq

/-- The attribute state established by the constructor (lines 56-61 of
context.py): empty property dict, empty state and signal sets, an
unset shutdown Event, the typing alias stored in the signal index
attribute, and no run_task attribute. -/
def Context.fresh : Context :=
  { properties := []
    states := []
    signals := []
    apsa := SigIndex.aliasObj
    shutdown_flag := false
    run_task := none }

/-- The outcome of a context method call: the attribute state when the
call returns or raises, the error messages logged, and the exception
raised, if any. -/
structure CallResult where
  ctx : Context
  log : List LogMsg
  err : Option PyErr
deriving DecidableEq

/-- Context.emit: adds the signal to the pending-signal set under the
lock.  The parents and wipe parameters of the Python signature are not
used by the body and are omitted. -/
def Context.emit (c : Context) (signal : Sig) : Context :=
  { c with signals := pySetAdd c.signals signal }

/-- Context.shutting_down: the is_set query on the shutdown Event. -/
def Context.shutting_down (c : Context) : Bool :=
  c.shutdown_flag

/-- Context.run: reads the run_task attribute, which was never
assigned, so the read raises AttributeError.  Were the attribute
assigned, it would hold a Thread object, which is always truthy, so
the call would log the already-started error and return; the
thread-creation statements after the if are unreachable either way. -/
def Context.run (c : Context) : CallResult :=
  match c.run_task with
  | none => { ctx := c, log := [], err := some (PyErr.attributeError "run_task") }
  | some _t => { ctx := c, log := [LogMsg.errStartTwice], err := none }

/-- Context.shutdown: sets the shutdown flag, emits :shutdown, then
reads the run_task attribute for the join, which raises AttributeError
when the attribute was never assigned.  The mutations before the read
persist. -/
def Context.shutdown (c : Context) : CallResult :=
  let c2 := Context.emit { c with shutdown_flag := true } ":shutdown"
  match c2.run_task with
  | none => { ctx := c2, log := [], err := some (PyErr.attributeError "run_task") }
  | some _t => { ctx := c2, log := [], err := none }

/-- The signal-indexing loop of add_state (lines 143-147 of
context.py): for each trigger signal, a membership test on the index,
then either an index update or an unknown-signal error message; after
the loop the state is added to the state set.  An exception leaves the
attributes as they were when it was raised. -/
def addStateLoop (c : Context) (st : State) (lg : List LogMsg) :
    List Sig → CallResult
  | [] => { ctx := { c with states := pySetAdd c.states st }, log := lg, err := none }
  | sig :: rest =>
      match c.apsa.containsSig sig with
      | Except.error e => { ctx := c, log := lg, err := some e }
      | Except.ok true =>
          match c.apsa.addInterested sig st with
          | Except.error e => { ctx := c, log := lg, err := some e }
          | Except.ok a2 => addStateLoop { c with apsa := a2 } st lg rest
      | Except.ok false =>
          addStateLoop c st (lg ++ [LogMsg.errUnknownSignal sig]) rest

/-- Context.add_state (lines 118-148 of context.py).  A state already
in the state set is a logged no-op.  Otherwise an error is logged for
every read or write property missing from the property dict, but the
registration continues.  If the state has a truthy completion signal,
the index receives an empty entry for it (TypeError on the alias).  A
string-valued triggers attribute is logged and then faults on
get_all_signals.  Finally the signal-indexing loop runs and the state
is added to the state set. -/
def Context.add_state (c : Context) (st : State) : CallResult :=
  if st ∈ c.states then
    { ctx := c, log := [LogMsg.errAddStateTwice st.name], err := none }
  else
    let propLogs := (st.read_props ++ st.write_props).filterMap
      (fun p => if (dictLookup c.properties p).isSome then none
                else some (LogMsg.errUnknownProperty p))
    let afterSignal : Except (Context × PyErr) Context :=
      match st.signal with
      | none => Except.ok c
      | some sig =>
          match c.apsa.setEmptyEntry sig with
          | Except.error e => Except.error (c, e)
          | Except.ok a2 => Except.ok { c with apsa := a2 }
    match afterSignal with
    | Except.error ce =>
        { ctx := ce.1, log := propLogs, err := some ce.2 }
    | Except.ok c2 =>
        let strLogs := match st.triggers with
          | Trigger.str legacy => [LogMsg.errStringTrigger legacy]
          | Trigger.constraint _ => []
        match st.triggers.get_all_signals with
        | none =>
            { ctx := c2, log := propLogs ++ strLogs,
              err := some (PyErr.attributeError "get_all_signals") }
        | some sigs => addStateLoop c2 st (propLogs ++ strLogs) sigs

/-- The index-cleanup loop of rm_state (lines 162-163 of context.py):
index[sig].remove(st) for each trigger signal, then removal of the
state from the state set. -/
def rmStateLoop (c : Context) (st : State) : List Sig → CallResult
  | [] => { ctx := { c with states := pySetRemove c.states st }, log := [], err := none }
  | sig :: rest =>
      match c.apsa.removeInterested sig st with
      | Except.error e => { ctx := c, log := [], err := some e }
      | Except.ok a2 => rmStateLoop { c with apsa := a2 } st rest

/-- Context.rm_state (lines 150-164 of context.py).  A state not in
the state set is a logged no-op.  Otherwise the completion signal
entry is popped from the index (TypeError on the alias), each trigger
signal entry has the state removed from it, and the state leaves the
state set. -/
def Context.rm_state (c : Context) (st : State) : CallResult :=
  if st ∈ c.states then
    match st.signal with
    | some sig =>
        match c.apsa.popEntry sig with
        | Except.error e => { ctx := c, log := [], err := some e }
        | Except.ok a2 =>
            match st.triggers.get_all_signals with
            | none =>
                { ctx := { c with apsa := a2 }, log := [],
                  err := some (PyErr.attributeError "get_all_signals") }
            | some sigs => rmStateLoop { c with apsa := a2 } st sigs
    | none =>
        match st.triggers.get_all_signals with
        | none =>
            { ctx := c, log := [],
              err := some (PyErr.attributeError "get_all_signals") }
        | some sigs => rmStateLoop c st sigs
  else
    { ctx := c, log := [LogMsg.errRemoveUnknownState st.name], err := none }

/-- The four signal-name suffixes every property materializes. -/
def default_property_signal_names : List String :=
  [":changed", ":pushed", ":popped", ":deleted"]

/-- The signal-registration loop of add_prop (lines 178-180 of
context.py): index[s(fullname ++ suffix)] = defaultdict(set) for each
suffix (TypeError on the alias at the first suffix). -/
def addPropSignalsLoop (c : Context) : List Sig → CallResult
  | [] => { ctx := c, log := [], err := none }
  | sig :: rest =>
      match c.apsa.setEmptyEntry sig with
      | Except.error e => { ctx := c, log := [], err := some e }
      | Except.ok a2 => addPropSignalsLoop { c with apsa := a2 } rest

/-- Context.add_prop (lines 166-180 of context.py).  The duplicate
check compares the fullname STRING against the property OBJECTS in
properties.values(), which is always False, so the duplicate branch is
dead; the property is then (re-)bound in the property dict, and the
derived-signal registration loop runs. -/
def Context.add_prop (c : Context) (p : PropertyBase) : CallResult :=
  if strInValues p.fullname c.properties then
    { ctx := c, log := [LogMsg.errAddPropTwice p.name], err := none }
  else
    addPropSignalsLoop
      { c with properties := dictInsert c.properties p.fullname p }
      (default_property_signal_names.map (fun suffix => p.fullname ++ suffix))

/-- The outcome of a get_prop call: the (unchanged) attribute state,
the messages logged, and the returned value. -/
structure GetPropResult where
  ctx : Context
  log : List LogMsg
  ret : Option PropertyBase
deriving DecidableEq

/-- Context.get_prop (lines 182-198 of context.py): key lookup in the
property dict; a missing key is logged and None is returned.  No
attribute is mutated. -/
def Context.get_prop (c : Context) (key : String) : GetPropResult :=
  match dictLookup c.properties key with
  | none => { ctx := c, log := [LogMsg.errUnknownPropKey key], ret := none }
  | some p => { ctx := c, log := [], ret := some p }

/-- Truthiness of a threading.Event object: Event defines neither a
bool nor a len conversion, so the object is truthy regardless of the
internal flag. -/
def eventTruthy (_isSet : Bool) : Bool :=
  true

/-- The loop of Context._run_private (lines 222-228 of context.py),
fueled: the guard is (not self._shutdown_flag), a truthiness test on
the Event OBJECT, and the body is pass.  Returns the number of
iterations executed within the given fuel. -/
def runPrivateIters (c : Context) : Nat → Nat
  | 0 => 0
  | fuel + 1 =>
      if !eventTruthy c.shutdown_flag then runPrivateIters c fuel + 1
      else 0

/-- The public context operations, used to quantify over every
attribute state reachable from a fresh context. -/
inductive PublicOp where
  | emitOp (sig : Sig)
  | runOp
  | shutdownOp
  | addStateOp (st : State)
  | rmStateOp (st : State)
  | addPropOp (p : PropertyBase)
  | getPropOp (key : String)
deriving DecidableEq

/-- The attribute state after one public operation (exceptions
propagate to the caller, but the attribute mutations made before the
raise persist). -/
def Context.applyOp (c : Context) : PublicOp → Context
  | PublicOp.emitOp sig => c.emit sig
  | PublicOp.runOp => (c.run).ctx
  | PublicOp.shutdownOp => (c.shutdown).ctx
  | PublicOp.addStateOp st => (c.add_state st).ctx
  | PublicOp.rmStateOp st => (c.rm_state st).ctx
  | PublicOp.addPropOp p => (c.add_prop p).ctx
  | PublicOp.getPropOp key => (c.get_prop key).ctx

/-- The attribute state after a sequence of public operations. -/
def Context.applyOps (c : Context) (ops : List PublicOp) : Context :=
  ops.foldl Context.applyOp c

/-- Modelled from the spec: the trigger expression tree over signals,
with variants Leaf(signal), And(children), Or(children)
(constraint.py, which implements the expression combinators, is not
part of the reviewed material). -/
inductive TriggerExpr where
  | leaf (sig : Sig)
  | and (children : List TriggerExpr)
  | or (children : List TriggerExpr)

mutual

/-- Modelled from the spec: the specificity of an activation whose
matched spikes cover the signal set m — each satisfied leaf
contributes one unit, an And node contributes the sum of its
children, an Or node the maximum among its children (activation.py is
not part of the reviewed material; the in-repository test
test_specificity asserts the value 1 for a single-leaf trigger with
its one spike matched). -/
def specificity (m : List Sig) : TriggerExpr → Nat
  | TriggerExpr.leaf sig => if sig ∈ m then 1 else 0
  | TriggerExpr.and cs => specSum m cs
  | TriggerExpr.or cs => specMax m cs

/-- Sum of the specificities of the children of an And node. -/
def specSum (m : List Sig) : List TriggerExpr → Nat
  | [] => 0
  | e :: rest => specificity m e + specSum m rest

/-- Maximum of the specificities of the children of an Or node. -/
def specMax (m : List Sig) : List TriggerExpr → Nat
  | [] => 0
  | e :: rest => max (specificity m e) (specMax m rest)

end

mutual

/-- Specificity is monotone in the matched signal set. -/
theorem specificity_mono (m m2 : List Sig) (hsub : ∀ x, x ∈ m → x ∈ m2) :
    ∀ e, specificity m e ≤ specificity m2 e
  | TriggerExpr.leaf sig => by
      simp only [specificity]
      by_cases h : sig ∈ m
      · simp [h, hsub sig h]
      · simp [h]
  | TriggerExpr.and cs => by
      simpa only [specificity] using specSum_mono m m2 hsub cs
  | TriggerExpr.or cs => by
      simpa only [specificity] using specMax_mono m m2 hsub cs

/-- Child-sum specificity is monotone in the matched signal set. -/
theorem specSum_mono (m m2 : List Sig) (hsub : ∀ x, x ∈ m → x ∈ m2) :
    ∀ es, specSum m es ≤ specSum m2 es
  | [] => le_refl _
  | e :: rest => by
      simp only [specSum]
      exact Nat.add_le_add (specificity_mono m m2 hsub e)
        (specSum_mono m m2 hsub rest)

/-- Child-max specificity is monotone in the matched signal set. -/
theorem specMax_mono (m m2 : List Sig) (hsub : ∀ x, x ∈ m → x ∈ m2) :
    ∀ es, specMax m es ≤ specMax m2 es
  | [] => le_refl _
  | e :: rest => by
      simp only [specMax]
      exact max_le_max (specificity_mono m m2 hsub e)
        (specMax_mono m m2 hsub rest)

end

/-- Adding an element makes it a member of a Python set. -/
theorem pySetAdd_mem {α : Type} [DecidableEq α] (s : List α) (a : α) :
    a ∈ pySetAdd s a := by
  unfold pySetAdd
  split
  · assumption
  · exact List.mem_cons_self a s

/-- Adding the same element twice equals adding it once. -/
theorem pySetAdd_idem {α : Type} [DecidableEq α] (s : List α) (a : α) :
    pySetAdd (pySetAdd s a) a = pySetAdd s a := by
  have h := pySetAdd_mem s a
  conv_lhs => rw [pySetAdd]
  rw [if_pos h]

/-- Adding a fresh element prepends it. -/
theorem pySetAdd_of_not_mem {α : Type} [DecidableEq α] {s : List α} {a : α}
    (h : a ∉ s) : pySetAdd s a = a :: s := by
  unfold pySetAdd
  rw [if_neg h]

/-- Removing a freshly added element restores the set. -/
theorem pySetRemove_pySetAdd {α : Type} [DecidableEq α] (s : List α) (a : α)
    (h : a ∉ s) : pySetRemove (pySetAdd s a) a = s := by
  have hfilter : s.filter (fun b => decide (b ≠ a)) = s :=
    List.filter_eq_self.mpr (fun b hb => by
      simp only [decide_eq_true_eq]
      intro hba
      exact h (hba ▸ hb))
  rw [pySetAdd_of_not_mem h]
  unfold pySetRemove
  simp only [List.filter_cons]
  simp [hfilter]
  intro b hb hba
  exact h (hba ▸ hb)

/-- Looking up a freshly inserted key returns the inserted value. -/
theorem dictLookup_dictInsert (d : List (String × PropertyBase))
    (k : String) (v : PropertyBase) :
    dictLookup (dictInsert d k v) k = some v := by
  induction d with
  | nil => simp [dictInsert, dictLookup]
  | cons kv rest ih =>
      by_cases h : kv.1 = k
      · simp [dictInsert, dictLookup, h]
      · simp only [dictInsert, dictLookup, h, if_false, ite_false]
        exact ih

/-- The duplicate test of add_prop never fires: a string is never equal
to a property object. -/
theorem strInValues_false (fn : String) (d : List (String × PropertyBase)) :
    strInValues fn d = false := by
  simp [strInValues, strEqPropertyBase]

/-- The signal-indexing loop of add_state touches only the state set
and the signal index. -/
theorem addStateLoop_frame (st : State) (sigs : List Sig) :
    ∀ (c : Context) (lg : List LogMsg),
      (addStateLoop c st lg sigs).ctx.properties = c.properties ∧
      (addStateLoop c st lg sigs).ctx.signals = c.signals ∧
      (addStateLoop c st lg sigs).ctx.shutdown_flag = c.shutdown_flag ∧
      (addStateLoop c st lg sigs).ctx.run_task = c.run_task := by
  induction sigs with
  | nil => intro c lg; simp [addStateLoop]
  | cons sig rest ih =>
      intro c lg
      rw [addStateLoop]
      cases hc : c.apsa.containsSig sig with
      | error e => simp
      | ok b =>
          cases b with
          | false => exact ih c (lg ++ [LogMsg.errUnknownSignal sig])
          | true =>
              cases ha : c.apsa.addInterested sig st with
              | error e => simp
              | ok a2 => exact ih { c with apsa := a2 } lg

/-- The index-cleanup loop of rm_state touches only the state set and
the signal index. -/
theorem rmStateLoop_frame (st : State) (sigs : List Sig) :
    ∀ (c : Context),
      (rmStateLoop c st sigs).ctx.properties = c.properties ∧
      (rmStateLoop c st sigs).ctx.signals = c.signals ∧
      (rmStateLoop c st sigs).ctx.shutdown_flag = c.shutdown_flag ∧
      (rmStateLoop c st sigs).ctx.run_task = c.run_task := by
  induction sigs with
  | nil => intro c; simp [rmStateLoop]
  | cons sig rest ih =>
      intro c
      rw [rmStateLoop]
      cases hr : c.apsa.removeInterested sig st with
      | error e => simp
      | ok a2 => exact ih { c with apsa := a2 }

/-- The derived-signal loop of add_prop touches only the signal
index. -/
theorem addPropSignalsLoop_frame (sigs : List Sig) :
    ∀ (c : Context),
      (addPropSignalsLoop c sigs).ctx.properties = c.properties ∧
      (addPropSignalsLoop c sigs).ctx.states = c.states ∧
      (addPropSignalsLoop c sigs).ctx.signals = c.signals ∧
      (addPropSignalsLoop c sigs).ctx.shutdown_flag = c.shutdown_flag ∧
      (addPropSignalsLoop c sigs).ctx.run_task = c.run_task := by
  induction sigs with
  | nil => intro c; simp [addPropSignalsLoop]
  | cons sig rest ih =>
      intro c
      rw [addPropSignalsLoop]
      cases hs : c.apsa.setEmptyEntry sig with
      | error e => simp
      | ok a2 => exact ih { c with apsa := a2 }

/-- Context.run leaves every attribute unchanged. -/
theorem run_ctx (c : Context) : (c.run).ctx = c := by
  cases h : c.run_task <;> simp [Context.run, h]

/-- Context.get_prop leaves every attribute unchanged. -/
theorem get_prop_ctx (c : Context) (key : String) :
    (c.get_prop key).ctx = c := by
  cases h : dictLookup c.properties key <;> simp [Context.get_prop, h]

/-- When the run_task attribute was never assigned, Context.shutdown
sets the shutdown flag, emits :shutdown, and raises AttributeError at
the join. -/
theorem shutdown_of_run_task_none (c : Context) (h : c.run_task = none) :
    c.shutdown =
      { ctx := { c with shutdown_flag := true
                        signals := pySetAdd c.signals ":shutdown" }
        log := []
        err := some (PyErr.attributeError "run_task") } := by
  simp [Context.shutdown, Context.emit, h]

/-- Context.shutdown always leaves the shutdown flag set. -/
theorem shutdown_flag_set (c : Context) :
    (c.shutdown).ctx.shutdown_flag = true := by
  cases h : c.run_task <;> simp [Context.shutdown, Context.emit, h]

/-- Context.shutdown does not assign the run_task attribute. -/
theorem shutdown_run_task (c : Context) :
    (c.shutdown).ctx.run_task = c.run_task := by
  cases h : c.run_task <;> simp [Context.shutdown, Context.emit, h]

/-- Context.add_state touches neither the run_task attribute nor the
shutdown flag. -/
theorem add_state_frame (c : Context) (st : State) :
    (c.add_state st).ctx.shutdown_flag = c.shutdown_flag ∧
    (c.add_state st).ctx.run_task = c.run_task := by
  by_cases hm : st ∈ c.states
  · simp [Context.add_state, hm]
  · cases hsig : st.signal with
    | none =>
        cases htrig : st.triggers with
        | str legacy =>
            simp [Context.add_state, hm, hsig, htrig, Trigger.get_all_signals]
        | constraint sigs =>
            simp only [Context.add_state, hm, if_false, hsig, htrig,
              Trigger.get_all_signals, ite_false]
            exact ⟨(addStateLoop_frame st sigs c _).2.2.1,
                   (addStateLoop_frame st sigs c _).2.2.2⟩
    | some sig =>
        cases hse : c.apsa.setEmptyEntry sig with
        | error e =>
            simp [Context.add_state, hm, hsig, hse]
        | ok a2 =>
            cases htrig : st.triggers with
            | str legacy =>
                simp [Context.add_state, hm, hsig, hse, htrig,
                  Trigger.get_all_signals]
            | constraint sigs =>
                simp only [Context.add_state, hm, if_false, hsig, hse, htrig,
                  Trigger.get_all_signals, ite_false]
                exact ⟨(addStateLoop_frame st sigs { c with apsa := a2 } _).2.2.1,
                       (addStateLoop_frame st sigs { c with apsa := a2 } _).2.2.2⟩

/-- Context.rm_state touches neither the run_task attribute nor the
shutdown flag. -/
theorem rm_state_frame (c : Context) (st : State) :
    (c.rm_state st).ctx.shutdown_flag = c.shutdown_flag ∧
    (c.rm_state st).ctx.run_task = c.run_task := by
  by_cases hm : st ∈ c.states
  · cases hsig : st.signal with
    | none =>
        cases htrig : st.triggers with
        | str legacy =>
            simp [Context.rm_state, hm, hsig, htrig, Trigger.get_all_signals]
        | constraint sigs =>
            simp only [Context.rm_state, hm, if_true, hsig, htrig,
              Trigger.get_all_signals, ite_true]
            exact ⟨(rmStateLoop_frame st sigs c).2.2.1,
                   (rmStateLoop_frame st sigs c).2.2.2⟩
    | some sig =>
        cases hp : c.apsa.popEntry sig with
        | error e =>
            simp [Context.rm_state, hm, hsig, hp]
        | ok a2 =>
            cases htrig : st.triggers with
            | str legacy =>
                simp [Context.rm_state, hm, hsig, hp, htrig,
                  Trigger.get_all_signals]
            | constraint sigs =>
                simp only [Context.rm_state, hm, if_true, hsig, hp, htrig,
                  Trigger.get_all_signals, ite_true]
                exact ⟨(rmStateLoop_frame st sigs { c with apsa := a2 }).2.2.1,
                       (rmStateLoop_frame st sigs { c with apsa := a2 }).2.2.2⟩
  · simp [Context.rm_state, hm]

/-- Context.add_prop binds the property under its full name (the dead
duplicate check notwithstanding) and touches neither the run_task
attribute nor the shutdown flag. -/
theorem add_prop_frame (c : Context) (p : PropertyBase) :
    (c.add_prop p).ctx.properties = dictInsert c.properties p.fullname p ∧
    (c.add_prop p).ctx.shutdown_flag = c.shutdown_flag ∧
    (c.add_prop p).ctx.run_task = c.run_task := by
  unfold Context.add_prop
  simp only [strInValues_false, Bool.false_eq_true, if_false]
  refine ⟨?_, ?_, ?_⟩
  · exact (addPropSignalsLoop_frame _ _).1
  · exact (addPropSignalsLoop_frame _ _).2.2.2.1
  · exact (addPropSignalsLoop_frame _ _).2.2.2.2

/-- One public operation never assigns the run_task attribute and
never clears the shutdown flag. -/
theorem applyOp_frame (c : Context) (op : PublicOp) :
    (c.applyOp op).run_task = c.run_task ∧
    (c.shutdown_flag = true → (c.applyOp op).shutdown_flag = true) := by
  cases op with
  | emitOp sig => exact ⟨rfl, fun h => h⟩
  | runOp =>
      constructor
      · show (c.run).ctx.run_task = c.run_task
        rw [run_ctx]
      · intro h
        show (c.run).ctx.shutdown_flag = true
        rw [run_ctx]; exact h
  | shutdownOp => exact ⟨shutdown_run_task c, fun _ => shutdown_flag_set c⟩
  | addStateOp st =>
      exact ⟨(add_state_frame c st).2, fun h => ((add_state_frame c st).1).trans h⟩
  | rmStateOp st =>
      exact ⟨(rm_state_frame c st).2, fun h => ((rm_state_frame c st).1).trans h⟩
  | addPropOp p =>
      exact ⟨(add_prop_frame c p).2.2,
             fun h => ((add_prop_frame c p).2.1).trans h⟩
  | getPropOp key =>
      constructor
      · show (c.get_prop key).ctx.run_task = c.run_task
        rw [get_prop_ctx]
      · intro h
        show (c.get_prop key).ctx.shutdown_flag = true
        rw [get_prop_ctx]; exact h

/-- No sequence of public operations assigns the run_task attribute. -/
theorem applyOps_run_task (ops : List PublicOp) :
    ∀ c : Context, (c.applyOps ops).run_task = c.run_task := by
  induction ops with
  | nil => intro c; rfl
  | cons op rest ih =>
      intro c
      show ((c.applyOp op).applyOps rest).run_task = c.run_task
      rw [ih (c.applyOp op)]
      exact (applyOp_frame c op).1

/-- The missing-property messages logged by add_state are all
errUnknownProperty entries; in particular no unknown-signal error is
among them. -/
theorem errUnknownSignal_not_mem_propLogs (c : Context) (l : List String)
    (sig : Sig) :
    LogMsg.errUnknownSignal sig ∉ l.filterMap
      (fun p => if (dictLookup c.properties p).isSome then none
                else some (LogMsg.errUnknownProperty p)) := by
  intro hmem
  rcases List.mem_filterMap.mp hmem with ⟨a, _, heq⟩
  by_cases h : (dictLookup c.properties a).isSome
  · simp [h] at heq
  · simp [h] at heq

/-- No sequence of public operations clears a set shutdown flag. -/
theorem applyOps_flag (ops : List PublicOp) :
    ∀ c : Context, c.shutdown_flag = true →
      (c.applyOps ops).shutdown_flag = true := by
  induction ops with
  | nil => intro c h; exact h
  | cons op rest ih =>
      intro c h
      show ((c.applyOp op).applyOps rest).shutdown_flag = true
      exact ih (c.applyOp op) ((applyOp_frame c op).2 h)

/-- A state that reads the unregistered property baz:qux, has no
completion signal, and whose trigger constraint contains no signals. -/
def stMissingProp : State :=
  { sid := 0
    name := "s0"
    read_props := ["baz:qux"]
    write_props := []
    signal := none
    triggers := Trigger.constraint [] }

/-- A state that reads the unregistered property baz:qux and whose
trigger constraint yields the unregistered signal :nosuch. -/
def stTrigSig : State :=
  { sid := 2
    name := "s2"
    read_props := ["baz:qux"]
    write_props := []
    signal := none
    triggers := Trigger.constraint [":nosuch"] }

/-- A dependency-free state used to exercise add_state and rm_state. -/
def stPlain : State :=
  { sid := 1
    name := "s1"
    read_props := []
    write_props := []
    signal := none
    triggers := Trigger.constraint [] }

/-- A property object with full name bar:foo. -/
def propA : PropertyBase :=
  { pid := 1, module := "bar", name := "foo" }

/-- A second, distinct property object with the same full name
bar:foo. -/
def propB : PropertyBase :=
  { pid := 2, module := "bar", name := "foo" }

/-- C1: the claim is false as stated.  Adding a state that depends on
the unregistered property baz:qux logs the missing-property error but
does not reject the registration: the state is added to the state set,
which therefore differs from its value before the call. -/
theorem claim_C1_counterexample :
    LogMsg.errUnknownProperty "baz:qux" ∈
      (Context.fresh.add_state stMissingProp).log ∧
    stMissingProp ∈ (Context.fresh.add_state stMissingProp).ctx.states ∧
    (Context.fresh.add_state stMissingProp).ctx.states ≠
      Context.fresh.states := by
  decide

/-- C1 (amended): for every state st not yet registered, with no
outbound signal, whose read or write properties include an
unregistered property p, add_state logs the missing-property error but
continues past it.  When the trigger constraint yields no signals the
state is added to the registered-state set with no exception; when it
yields signals, the call instead raises TypeError at the signal-index
membership test (the index attribute holds the typing alias), leaving
every attribute unchanged, with the missing-property error logged but
no unknown-signal error and no graceful rejection. -/
theorem claim_C1_amended (c : Context) (st : State) (p : String)
    (h1 : st ∉ c.states) (h2 : st.signal = none)
    (h4 : p ∈ st.read_props ++ st.write_props)
    (h5 : dictLookup c.properties p = none) :
    (st.triggers = Trigger.constraint [] →
      (c.add_state st).err = none ∧
      (c.add_state st).ctx.states = st :: c.states ∧
      LogMsg.errUnknownProperty p ∈ (c.add_state st).log) ∧
    (∀ (sig0 : Sig) (rest : List Sig),
      st.triggers = Trigger.constraint (sig0 :: rest) →
      c.apsa = SigIndex.aliasObj →
      (c.add_state st).err = some PyErr.typeError ∧
      (c.add_state st).ctx = c ∧
      LogMsg.errUnknownProperty p ∈ (c.add_state st).log ∧
      LogMsg.errUnknownSignal sig0 ∉ (c.add_state st).log) := by
  constructor
  · intro h3
    simp only [Context.add_state, h1, h2, h3, Trigger.get_all_signals,
      addStateLoop, if_false, ite_false]
    refine ⟨by trivial, pySetAdd_of_not_mem h1, ?_⟩
    simp only [List.append_nil, List.mem_filterMap]
    exact ⟨p, h4, by rw [h5]; rfl⟩
  · intro sig0 rest h3 hapsa
    simp only [Context.add_state, h1, h2, h3, Trigger.get_all_signals,
      addStateLoop, hapsa, SigIndex.containsSig, if_false, ite_false,
      List.append_nil]
    refine ⟨by trivial, by trivial, ?_, ?_⟩
    · simp only [List.mem_filterMap]
      exact ⟨p, h4, by rw [h5]; rfl⟩
    · exact errUnknownSignal_not_mem_propLogs c
        (st.read_props ++ st.write_props) sig0

/-- C1 witness: the amended statement evaluated on a fresh context, at
the trigger-free state depending on baz:qux (added despite the logged
error) and at the state whose trigger constraint yields the signal
:nosuch (TypeError, nothing mutated, no unknown-signal log). -/
theorem claim_C1_witness :
    (stMissingProp ∉ Context.fresh.states ∧
     stTrigSig ∉ Context.fresh.states ∧
     "baz:qux" ∈ stMissingProp.read_props ++ stMissingProp.write_props) ∧
    ((Context.fresh.add_state stMissingProp).err = none ∧
     (Context.fresh.add_state stMissingProp).ctx.states =
       stMissingProp :: Context.fresh.states ∧
     LogMsg.errUnknownProperty "baz:qux" ∈
       (Context.fresh.add_state stMissingProp).log) ∧
    ((Context.fresh.add_state stTrigSig).err = some PyErr.typeError ∧
     (Context.fresh.add_state stTrigSig).ctx = Context.fresh ∧
     LogMsg.errUnknownProperty "baz:qux" ∈
       (Context.fresh.add_state stTrigSig).log ∧
     LogMsg.errUnknownSignal ":nosuch" ∉
       (Context.fresh.add_state stTrigSig).log) :=
  ⟨⟨by decide, by decide, by decide⟩,
   (claim_C1_amended Context.fresh stMissingProp "baz:qux" (by decide) rfl
     (by decide) rfl).1 rfl,
   (claim_C1_amended Context.fresh stTrigSig "baz:qux" (by decide) rfl
     (by decide) rfl).2 ":nosuch" [] rfl rfl⟩

/-- C2: the code contradicts its own documentation.  Registering a
second property object with the full name bar:foo logs no duplicate
error (the check compares the fullname string with property objects,
never with the dict keys) and rebinds the registry entry to the new
object, so the property map changes; the call then raises TypeError at
the derived-signal registration. -/
theorem claim_C2_bug :
    (Context.fresh.add_prop propA).ctx.properties = [("bar:foo", propA)] ∧
    ((Context.fresh.add_prop propA).ctx.add_prop propB).log = [] ∧
    ((Context.fresh.add_prop propA).ctx.add_prop propB).ctx.properties =
      [("bar:foo", propB)] ∧
    ((Context.fresh.add_prop propA).ctx.add_prop propB).ctx.properties ≠
      (Context.fresh.add_prop propA).ctx.properties ∧
    ((Context.fresh.add_prop propA).ctx.add_prop propB).err =
      some PyErr.typeError := by
  decide

/-- C3: the code faults.  The first call to run() on a freshly
constructed context raises AttributeError when reading the run_task
attribute (annotated but never assigned), logs nothing, creates no
thread and emits no :startup signal (every attribute is unchanged). -/
theorem claim_C3_bug :
    (Context.fresh.run).err = some (PyErr.attributeError "run_task") ∧
    (Context.fresh.run).ctx = Context.fresh ∧
    (Context.fresh.run).log = [] :=
  ⟨rfl, rfl, rfl⟩

/-- C4: the code faults.  On every context reachable from a fresh one
by public operations, shutdown() sets the shutdown flag and emits
:shutdown but then raises AttributeError at self.run_task.join()
(run() never assigns the attribute because it faults first), and a
second shutdown() call raises the same AttributeError again instead of
returning. -/
theorem claim_C4_bug (ops : List PublicOp) :
    ((Context.fresh.applyOps ops).shutdown).err =
      some (PyErr.attributeError "run_task") ∧
    ((Context.fresh.applyOps ops).shutdown).ctx.shutdown_flag = true ∧
    ":shutdown" ∈ ((Context.fresh.applyOps ops).shutdown).ctx.signals ∧
    (((Context.fresh.applyOps ops).shutdown).ctx.shutdown).err =
      some (PyErr.attributeError "run_task") := by
  have hrt : (Context.fresh.applyOps ops).run_task = none :=
    applyOps_run_task ops Context.fresh
  have hrt2 : ((Context.fresh.applyOps ops).shutdown).ctx.run_task = none :=
    (shutdown_run_task _).trans hrt
  refine ⟨?_, shutdown_flag_set _, ?_, ?_⟩
  · rw [shutdown_of_run_task_none _ hrt]
  · rw [shutdown_of_run_task_none _ hrt]
    exact pySetAdd_mem _ _
  · rw [shutdown_of_run_task_none _ hrt2]

/-- C5: the code contradicts its stated purpose.  The guard of the
signal-processing loop tests the truthiness of the Event object (which
is always True) instead of its flag, so the loop body never executes:
the loop performs zero iterations for any fuel, in particular on a
fresh context whose shutdown flag is still unset. -/
theorem claim_C5_bug :
    Context.fresh.shutting_down = false ∧
    ∀ (c : Context) (fuel : Nat), runPrivateIters c fuel = 0 := by
  refine ⟨rfl, ?_⟩
  intro c fuel
  cases fuel with
  | zero => rfl
  | succ n => simp [runPrivateIters, eventTruthy]

/-- C6: for a state whose registration by add_state succeeded (no
exception), rm_state removes it from the state set without faulting,
logging nothing, and leaving the signal index as it was; for a state
that is not registered, rm_state logs the unknown-state error and
leaves every attribute unchanged.  The hypothesis on the signal index
holds for every reachable context: the constructor stores the alias
and no operation ever replaces it. -/
theorem claim_C6 (c : Context) (st : State)
    (hnotin : st ∉ c.states) (hapsa : c.apsa = SigIndex.aliasObj) :
    ((c.add_state st).err = none →
      (((c.add_state st).ctx.rm_state st).err = none ∧
       ((c.add_state st).ctx.rm_state st).log = [] ∧
       ((c.add_state st).ctx.rm_state st).ctx.states = c.states ∧
       ((c.add_state st).ctx.rm_state st).ctx.apsa = c.apsa)) ∧
    ((c.rm_state st).ctx = c ∧
     (c.rm_state st).log = [LogMsg.errRemoveUnknownState st.name] ∧
     (c.rm_state st).err = none) := by
  constructor
  · intro herr
    cases hsig : st.signal with
    | some sig =>
        exfalso
        simp [Context.add_state, hnotin, hsig, hapsa,
          SigIndex.setEmptyEntry] at herr
    | none =>
        cases htrig : st.triggers with
        | str legacy =>
            exfalso
            simp [Context.add_state, hnotin, hsig, htrig,
              Trigger.get_all_signals] at herr
        | constraint sigs =>
            cases sigs with
            | cons sig0 rest =>
                exfalso
                simp [Context.add_state, hnotin, hsig, htrig,
                  Trigger.get_all_signals, addStateLoop, hapsa,
                  SigIndex.containsSig] at herr
            | nil =>
                have hctx : (c.add_state st).ctx =
                    { c with states := st :: c.states } := by
                  simp [Context.add_state, hnotin, hsig, htrig,
                    Trigger.get_all_signals, addStateLoop,
                    pySetAdd_of_not_mem hnotin]
                rw [hctx]
                have hmem : st ∈
                    ({ c with states := st :: c.states } : Context).states :=
                  List.mem_cons_self st c.states
                have hrm : ({ c with states := st :: c.states } : Context).rm_state st =
                    { ctx := { c with states := pySetRemove (st :: c.states) st }
                      log := []
                      err := none } := by
                  simp [Context.rm_state, hmem, hsig, htrig,
                    Trigger.get_all_signals, rmStateLoop]
                rw [hrm]
                refine ⟨rfl, rfl, ?_, rfl⟩
                have hrem := pySetRemove_pySetAdd c.states st hnotin
                rw [pySetAdd_of_not_mem hnotin] at hrem
                exact hrem
  · refine ⟨?_, ?_, ?_⟩ <;> simp [Context.rm_state, hnotin]

/-- C6 witness: the statement evaluated for a dependency-free state on
a fresh context. -/
theorem claim_C6_witness :
    (stPlain ∉ Context.fresh.states ∧
     Context.fresh.apsa = SigIndex.aliasObj) ∧
    (((Context.fresh.add_state stPlain).err = none →
       (((Context.fresh.add_state stPlain).ctx.rm_state stPlain).err = none ∧
        ((Context.fresh.add_state stPlain).ctx.rm_state stPlain).log = [] ∧
        ((Context.fresh.add_state stPlain).ctx.rm_state stPlain).ctx.states =
          Context.fresh.states ∧
        ((Context.fresh.add_state stPlain).ctx.rm_state stPlain).ctx.apsa =
          Context.fresh.apsa)) ∧
     ((Context.fresh.rm_state stPlain).ctx = Context.fresh ∧
      (Context.fresh.rm_state stPlain).log =
        [LogMsg.errRemoveUnknownState stPlain.name] ∧
      (Context.fresh.rm_state stPlain).err = none)) :=
  ⟨⟨by decide, rfl⟩, claim_C6 Context.fresh stPlain (by decide) rfl⟩

/-- C7: specificity is monotone in the matched signal set; for the
trigger expression And(A, B) with distinct signals A and B, matching
both signals yields strictly greater specificity than matching only A;
and a single matched leaf has specificity 1, the value asserted by the
in-repository test test_specificity. -/
theorem claim_C7 (a b : Sig) (hab : a ≠ b)
    (m m2 : List Sig) (hsub : ∀ x, x ∈ m → x ∈ m2) (e : TriggerExpr) :
    specificity [a] (TriggerExpr.and [TriggerExpr.leaf a, TriggerExpr.leaf b]) <
      specificity [a, b]
        (TriggerExpr.and [TriggerExpr.leaf a, TriggerExpr.leaf b]) ∧
    specificity m e ≤ specificity m2 e ∧
    ∀ sg : Sig, specificity [sg] (TriggerExpr.leaf sg) = 1 := by
  refine ⟨?_, specificity_mono m m2 hsub e, ?_⟩
  · have hba : (b = a) = False :=
      eq_false (fun hcontra => hab hcontra.symm)
    simp [specificity, specSum, hba]
  · intro sg
    simp [specificity]

/-- C7 witness: the statement evaluated at the signals :a and :b, the
matched sets of Scenario And(A, B), and a single leaf. -/
theorem claim_C7_witness :
    ((":a" : Sig) ≠ ":b" ∧
     (∀ x, x ∈ ([":a"] : List Sig) → x ∈ ([":a", ":b"] : List Sig))) ∧
    (specificity [":a"]
        (TriggerExpr.and [TriggerExpr.leaf ":a", TriggerExpr.leaf ":b"]) <
      specificity [":a", ":b"]
        (TriggerExpr.and [TriggerExpr.leaf ":a", TriggerExpr.leaf ":b"]) ∧
     specificity [":a"] (TriggerExpr.leaf ":a") ≤
       specificity [":a", ":b"] (TriggerExpr.leaf ":a") ∧
     ∀ sg : Sig, specificity [sg] (TriggerExpr.leaf sg) = 1) :=
  ⟨⟨by decide, fun x hx => by
      simp only [List.mem_singleton] at hx
      simp [hx]⟩,
   claim_C7 ":a" ":b" (by decide) [":a"] [":a", ":b"]
     (fun x hx => by
       simp only [List.mem_singleton] at hx
       simp [hx])
     (TriggerExpr.leaf ":a")⟩

/-- C8: after add_prop registers a property, get_prop on its full name
returns that property object without mutating anything; get_prop on an
unregistered key logs the unknown-key error, returns None, and mutates
nothing. -/
theorem claim_C8 (c : Context) (p : PropertyBase) (key : String)
    (hmiss : dictLookup c.properties key = none) :
    (((c.add_prop p).ctx.get_prop p.fullname).ret = some p ∧
     ((c.add_prop p).ctx.get_prop p.fullname).ctx = (c.add_prop p).ctx) ∧
    ((c.get_prop key).ret = none ∧
     (c.get_prop key).log = [LogMsg.errUnknownPropKey key] ∧
     (c.get_prop key).ctx = c) := by
  constructor
  · have hlook : dictLookup ((c.add_prop p).ctx.properties) p.fullname =
        some p := by
      rw [(add_prop_frame c p).1]
      exact dictLookup_dictInsert _ _ _
    exact ⟨by simp [Context.get_prop, hlook], get_prop_ctx _ _⟩
  · refine ⟨?_, ?_, ?_⟩ <;> simp [Context.get_prop, hmiss]

/-- C8 witness: the statement evaluated on a fresh context, the
property bar:foo, and an unregistered key. -/
theorem claim_C8_witness :
    dictLookup Context.fresh.properties "nope" = none ∧
    ((((Context.fresh.add_prop propA).ctx.get_prop propA.fullname).ret =
        some propA ∧
      ((Context.fresh.add_prop propA).ctx.get_prop propA.fullname).ctx =
        (Context.fresh.add_prop propA).ctx) ∧
     ((Context.fresh.get_prop "nope").ret = none ∧
      (Context.fresh.get_prop "nope").log =
        [LogMsg.errUnknownPropKey "nope"] ∧
      (Context.fresh.get_prop "nope").ctx = Context.fresh)) :=
  ⟨rfl, claim_C8 Context.fresh propA "nope" rfl⟩

/-- C9: emit is idempotent on the pending-signal set: emitting the
same signal twice leaves the context exactly as one emit does, and
after an emit the signal is pending. -/
theorem claim_C9 (c : Context) (sig : Sig) :
    (c.emit sig).emit sig = c.emit sig ∧ sig ∈ (c.emit sig).signals := by
  constructor
  · simp [Context.emit, pySetAdd_idem]
  · exact pySetAdd_mem _ _

/-- C10: the shutdown flag is monotone over the context lifetime: it
is unset on a fresh context, and once shutdown() has run (the flag is
set before the AttributeError at the join), shutting_down reports true
after every further sequence of public operations. -/
theorem claim_C10 :
    Context.fresh.shutting_down = false ∧
    ∀ (c : Context) (ops : List PublicOp),
      ((c.shutdown).ctx.applyOps ops).shutting_down = true := by
  refine ⟨rfl, ?_⟩
  intro c ops
  show ((c.shutdown).ctx.applyOps ops).shutdown_flag = true
  exact applyOps_flag ops _ (shutdown_flag_set c)

end Ravestate
